import Mathlib

/-!
Shallow embedding of the Session Manager of the smartLibrary frontend
(src/contexts/AuthContext.tsx, with the API client shapes from the HTTP
client module).  The component's state is the React state of AuthProvider
(`user`, `loading`, `lastActivity`), the four durable localStorage keys
(access_token, user_role, user_name, login_time), the current route
(router.push sets it) and the third-party (Supabase) sign-in status.
Backend calls are modelled by passing their outcome as a parameter;
asynchronous operations that await a backend response are split into a
start step (up to the await) and a resume step (the continuation), so
that interleavings with other operations can be expressed.
-/

deriving instance DecidableEq for Except

namespace SmartLibrary

/-- Identity returned by the backend and held in React state
(interface User, AuthContext.tsx lines 8-13).  The role union type
is modelled as a string. -/
structure User where
  user_id : String
  email : String
  name : String
  role : String
deriving DecidableEq

/-- The four durable localStorage keys the Session Manager owns.
login_time is written as Date.now().toString() and read back with
parseInt, so it round-trips as a number and is modelled as Option Nat. -/
structure Storage where
  access_token : Option String
  user_role : Option String
  user_name : Option String
  login_time : Option Nat
deriving DecidableEq

/-- Full state of the Session Manager: React state of AuthProvider,
durable storage, current route, third-party provider sign-in status,
and a count of backend validate() calls issued (to express that a
failed validation is not retried). -/
structure AuthState where
  user : Option User
  loading : Bool
  lastActivity : Nat
  storage : Storage
  route : String
  supabaseSignedIn : Bool
  validateCalls : Nat
deriving DecidableEq

/-- Successful api.login response shape (POST /auth/login). -/
structure LoginResponse where
  access_token : String
  role : String
  user_id : String
  email : String
  name : String
deriving DecidableEq

/-- Successful api.validate response shape (GET /auth/validate). -/
structure ValidateResponse where
  user_id : String
  email : String
  role : String
  name : String
deriving DecidableEq

/-- Storage after localStorage.removeItem on all four session keys. -/
def clearedStorage : Storage :=
  { access_token := none, user_role := none, user_name := none, login_time := none }

/-- JavaScript truthiness of a nullable string: null and the empty
string are falsy (used for `if (!token)` and `expectedRole &&`). -/
def truthyStr : Option String → Bool
  | none => false
  | some s => s ≠ ""

/-- logout (AuthContext.tsx lines 243-251): await supabase.auth.signOut(),
remove the four storage keys, setUser(null), router.push to /login. -/
def logout (s : AuthState) : AuthState :=
  { s with
    supabaseSignedIn := false
    storage := clearedStorage
    user := none
    route := "/login" }

/-- The commit path of login after the role check passed
(AuthContext.tsx lines 206-222): persist token, role, name and
login_time = now, setUser, redirect by role. -/
def loginCommit (s : AuthState) (now : Nat) (resp : LoginResponse) : AuthState :=
  { s with
    storage :=
      { access_token := some resp.access_token
        user_role := some resp.role
        user_name := some resp.name
        login_time := some now }
    user := some
      { user_id := resp.user_id, email := resp.email
        name := resp.name, role := resp.role }
    route := if resp.role = "admin" then "/admin/dashboard" else "/student/dashboard" }

/-- login (AuthContext.tsx lines 198-226), given the successful backend
response.  The guard is `if (expectedRole && response.role !== expectedRole)`:
a null or empty expectedRole skips the check (JS truthiness).  On a
mismatch the thrown error leaves the state exactly as it was; the catch
block rethrows the same message. -/
def login (s : AuthState) (now : Nat) (resp : LoginResponse)
    (expectedRole : Option String) : Except String Unit × AuthState :=
  match expectedRole with
  | some r =>
      if r ≠ "" ∧ resp.role ≠ r then
        (Except.error ("Access denied: You are not authorized to login as a " ++ r), s)
      else
        (Except.ok (), loginCommit s now resp)
  | none => (Except.ok (), loginCommit s now resp)

/-- `localStorage.getItem('user_name') || response.email`
(AuthContext.tsx line 180): a missing or empty stored name falls back
to the backend email. -/
def storedNameOr (stored : Option String) (fallback : String) : String :=
  match stored with
  | some n => if n = "" then fallback else n
  | none => fallback

/-- checkAuth up to the `await api.validate()` (AuthContext.tsx lines
167-176): if the stored token is falsy, only setLoading(false) happens
and no validate call is issued; otherwise one validate call goes out.
Returns whether a call is now in flight, plus the state. -/
def checkAuthStart (s : AuthState) : Bool × AuthState :=
  if truthyStr s.storage.access_token then
    (true, { s with validateCalls := s.validateCalls + 1 })
  else
    (false, { s with loading := false })

/-- The continuation of checkAuth after the validate call resolves
(AuthContext.tsx lines 177-195).  On success: setUser with the name
taken from stored user_name with email fallback, then stamp login_time
if missing.  On failure: remove the four keys (the user field is not
touched).  Finally setLoading(false). -/
def checkAuthResume (s : AuthState) (now : Nat)
    (outcome : Except String ValidateResponse) : AuthState :=
  match outcome with
  | Except.ok resp =>
      let s1 := { s with user := some (User.mk resp.user_id resp.email
        (storedNameOr s.storage.user_name resp.email) resp.role) }
      let s2 :=
        if s1.storage.login_time = none then
          { s1 with storage := { s1.storage with login_time := some now } }
        else s1
      { s2 with loading := false }
  | Except.error _ =>
      { s with storage := clearedStorage, loading := false }

/-- checkAuth run to completion with no interleaving (AuthContext.tsx
lines 167-196). -/
def checkAuth (s : AuthState) (now : Nat)
    (outcome : Except String ValidateResponse) : AuthState :=
  if (checkAuthStart s).1 then checkAuthResume (checkAuthStart s).2 now outcome
  else (checkAuthStart s).2

/-- The inactivity branch of the 10-second interval callback
(AuthContext.tsx lines 140-144): logout when now - lastActivity
exceeds 10 minutes. -/
def inactivityCheck (s : AuthState) (now : Nat) : AuthState :=
  if now - s.lastActivity > 10 * 60 * 1000 then logout s else s

/-- The absolute-lifetime branch of the interval callback
(AuthContext.tsx lines 146-154): logout when now - login_time exceeds
30 minutes.  The stored login_time is the value read at the start of
the tick (logout's removals are awaited and land after the synchronous
callback body). -/
def maxSessionCheck (s1 : AuthState) (loginTime : Option Nat) (now : Nat) : AuthState :=
  match loginTime with
  | none => s1
  | some t => if now - t > 30 * 60 * 1000 then logout s1 else s1

/-- One run of the periodic check (AuthContext.tsx lines 137-155).  The
effect that registers the interval returns early when user is null
(line 124), so the tick only exists while a user is set. -/
def intervalCheck (s : AuthState) (now : Nat) : AuthState :=
  if s.user.isSome then
    maxSessionCheck (inactivityCheck s now) s.storage.login_time now
  else s

/-- Handler for the third-party SIGNED_IN auth event up to the
`await api.validate()` (AuthContext.tsx lines 51-63): setLoading(true),
stamp login_time if missing, store the session token, issue a validate
call. -/
def onSignedInStart (s : AuthState) (now : Nat) (sessionToken : String) : AuthState :=
  let s1 := { s with supabaseSignedIn := true, loading := true }
  let s2 :=
    if s1.storage.login_time = none then
      { s1 with storage := { s1.storage with login_time := some now } }
    else s1
  { s2 with
    storage := { s2.storage with access_token := some sessionToken }
    validateCalls := s2.validateCalls + 1 }

/-- Continuation of the SIGNED_IN handler after validate resolves
(AuthContext.tsx lines 64-94): on success setUser and persist role and
name, redirect by role when on the login or signup page; on failure
sign out of the provider, clear the keys and setUser(null). -/
def onSignedInResume (s : AuthState)
    (outcome : Except String ValidateResponse) : AuthState :=
  match outcome with
  | Except.ok resp =>
      let s1 := { s with
        user := some (User.mk resp.user_id resp.email resp.name resp.role)
        storage := { s.storage with
          user_role := some resp.role, user_name := some resp.name } }
      let s2 :=
        if s1.route = "/login" ∨ s1.route = "/signup" then
          { s1 with route := if resp.role = "admin" then "/admin/dashboard" else "/student/dashboard" }
        else s1
      { s2 with loading := false }
  | Except.error _ =>
      { s with
        supabaseSignedIn := false
        storage := clearedStorage
        user := none
        loading := false }

/-- Handler for the third-party SIGNED_OUT event (AuthContext.tsx lines
95-102): setUser(null), remove the four keys, navigate to /login. -/
def onSignedOut (s : AuthState) : AuthState :=
  { s with
    supabaseSignedIn := false
    user := none
    storage := clearedStorage
    route := "/login" }

/-- The global unauthorized signal handler (AuthContext.tsx lines
105-108) simply calls logout. -/
def handleUnauthorized (s : AuthState) : AuthState :=
  logout s

/-- The statement sequence of logout in source order (AuthContext.tsx
lines 243-251), to express which effect comes first. -/
inductive LogoutEffect where
  | supabaseSignOut
  | removeItem (key : String)
  | setUserNull
  | pushRoute (path : String)
deriving DecidableEq

/-- Effect trace of logout, in the order the statements appear. -/
def logoutEffects : List LogoutEffect :=
  [ LogoutEffect.supabaseSignOut
  , LogoutEffect.removeItem "access_token"
  , LogoutEffect.removeItem "user_role"
  , LogoutEffect.removeItem "user_name"
  , LogoutEffect.removeItem "login_time"
  , LogoutEffect.setUserNull
  , LogoutEffect.pushRoute "/login" ]

/-- The spec's session invariant restricted to its first conjunct:
an identity is only ever held while the credential is present in
durable storage. -/
def identityImpliesCredential (s : AuthState) : Prop :=
  s.user.isSome = true → s.storage.access_token.isSome = true

instance (s : AuthState) : Decidable (identityImpliesCredential s) := by
  unfold identityImpliesCredential
  infer_instance

/-- A state as found at startup with a persisted credential: no user
yet, loading, four keys populated, on a dashboard route. -/
def startupState : AuthState :=
  { user := none
    loading := true
    lastActivity := 0
    storage :=
      { access_token := some "tok", user_role := some "student"
        user_name := some "Alice", login_time := some 100 }
    route := "/student/dashboard"
    supabaseSignedIn := false
    validateCalls := 0 }

/-- A fresh unauthenticated state with empty storage. -/
def freshState : AuthState :=
  { user := none
    loading := false
    lastActivity := 0
    storage := clearedStorage
    route := "/login"
    supabaseSignedIn := false
    validateCalls := 0 }

/-- A successful validate response used in concrete runs. -/
def demoValidateResp : ValidateResponse :=
  { user_id := "u1", email := "a@b.com", role := "student", name := "Server" }

/-- A successful login response used in concrete runs. -/
def demoLoginResp : LoginResponse :=
  { access_token := "tok", role := "student", user_id := "u1"
    email := "a@b.com", name := "Alice" }

/-- C5: from every starting state, logout leaves the user null and all
four durable storage keys absent together. -/
theorem logout_clears_all_keys (s : AuthState) :
    (logout s).user = none ∧
    (logout s).storage.access_token = none ∧
    (logout s).storage.user_role = none ∧
    (logout s).storage.user_name = none ∧
    (logout s).storage.login_time = none := by
  simp [logout, clearedStorage]

/-- C6: logout is idempotent: a second logout changes nothing at all
(session state, identity, storage contents and route included). -/
theorem logout_idempotent (s : AuthState) :
    logout (logout s) = logout s := rfl

/-- C9: logout always signs out of the third-party provider as well —
its very first statement is supabase.auth.signOut() — so after any
logout, whatever the session's origin, neither the provider session nor
the local credential remains. -/
theorem logout_signs_out_provider :
    (∀ s : AuthState,
      (logout s).supabaseSignedIn = false ∧
      (logout s).storage.access_token = none ∧
      (logout s).user = none) ∧
    logoutEffects.head? = some LogoutEffect.supabaseSignOut := by
  constructor
  · intro s
    simp [logout, clearedStorage]
  · rfl

/-- C1: the code does not discard a stale validate response.  Starting
from a startup state with a persisted credential, if checkAuth issues
its validate call, logout then completes, and the stale success
response is processed afterwards, the continuation commits setUser
unconditionally: the final state holds a non-null identity and a
re-stamped login_time even though the credential is gone, instead of
remaining Unauthenticated. -/
theorem stale_validate_resurrects_identity :
    (checkAuthStart startupState).1 = true ∧
    (checkAuthResume (logout (checkAuthStart startupState).2) 2000
        (Except.ok demoValidateResp)).user =
      some (User.mk "u1" "a@b.com" "a@b.com" "student") ∧
    (checkAuthResume (logout (checkAuthStart startupState).2) 2000
        (Except.ok demoValidateResp)).storage.access_token = none ∧
    (checkAuthResume (logout (checkAuthStart startupState).2) 2000
        (Except.ok demoValidateResp)).storage.login_time = some 2000 := by
  decide

/-- C3: the state reached by letting logout complete while a startup
validate call is in flight violates the session invariant: the identity
is non-null while no credential is present in durable storage, so the
biconditional between identity and a validated stored credential fails
in a reachable state. -/
theorem race_violates_identity_invariant :
    ¬ identityImpliesCredential
      (checkAuthResume (logout (checkAuthStart startupState).2) 2000
        (Except.ok demoValidateResp)) := by
  decide

/-- C2 counterexample: an expectedRole that is supplied but empty is
falsy in JavaScript, so the guard `expectedRole && role !== expectedRole`
is skipped: the backend role "student" differs from the supplied
expectedRole "", yet login succeeds and commits the session and the
credential instead of failing with AccessDenied. -/
theorem login_empty_expected_role_commits :
    demoLoginResp.role ≠ "" ∧
    (login freshState 500 demoLoginResp (some "")).1 = Except.ok () ∧
    (login freshState 500 demoLoginResp (some "")).2.user ≠ none ∧
    (login freshState 500 demoLoginResp (some "")).2.storage.access_token = some "tok" := by
  decide

/-- C2 (amended): when the supplied expectedRole is non-empty and
differs from the role the backend returned, login fails with the
AccessDenied error and returns the state exactly unchanged: no session
and no storage key is written. -/
theorem login_role_mismatch_no_commit (s : AuthState) (now : Nat)
    (resp : LoginResponse) (r : String) (hr : r ≠ "") (hm : resp.role ≠ r) :
    login s now resp (some r) =
      (Except.error ("Access denied: You are not authorized to login as a " ++ r), s) := by
  simp [login, hr, hm]

/-- Concrete instance of the role-mismatch theorem: expectedRole
"admin" against backend role "student". -/
theorem login_role_mismatch_no_commit_witness :
    login freshState 500 demoLoginResp (some "admin") =
      (Except.error ("Access denied: You are not authorized to login as a " ++ "admin"),
        freshState) :=
  login_role_mismatch_no_commit freshState 500 demoLoginResp "admin"
    (by decide) (by decide)

/-- C4 counterexample: when startup validation fails, the catch block
clears the keys but performs no navigation (and no provider sign-out),
so the resulting state is not equal to the one logout produces: the
route stays on the dashboard instead of moving to the entry point. -/
theorem startup_failure_not_logout_state :
    checkAuth startupState 3000 (Except.error "network") ≠ logout startupState ∧
    (checkAuth startupState 3000 (Except.error "network")).route = "/student/dashboard" ∧
    (logout startupState).route = "/login" := by
  decide

/-- C4 (amended): when a persisted credential exists at startup and the
validate call fails, the resulting local session state matches logout's
(identity null, all four keys removed), exactly one validate call was
issued so the failure is not retried, but unlike logout no navigation
to the entry point happens: the route is left unchanged. -/
theorem startup_validate_failure_clears_like_logout (s : AuthState) (now : Nat)
    (e : String) (hu : s.user = none)
    (ht : truthyStr s.storage.access_token = true) :
    (checkAuth s now (Except.error e)).user = (logout s).user ∧
    (checkAuth s now (Except.error e)).storage = (logout s).storage ∧
    (checkAuth s now (Except.error e)).route = s.route ∧
    (checkAuth s now (Except.error e)).validateCalls = s.validateCalls + 1 := by
  simp [checkAuth, checkAuthStart, checkAuthResume, logout, ht, hu]

/-- Concrete instance of the amended startup-failure theorem. -/
theorem startup_validate_failure_clears_like_logout_witness :
    (checkAuth startupState 3000 (Except.error "network")).user =
        (logout startupState).user ∧
    (checkAuth startupState 3000 (Except.error "network")).storage =
        (logout startupState).storage ∧
    (checkAuth startupState 3000 (Except.error "network")).route =
        startupState.route ∧
    (checkAuth startupState 3000 (Except.error "network")).validateCalls =
        startupState.validateCalls + 1 :=
  startup_validate_failure_clears_like_logout startupState 3000 "network"
    (by decide) (by decide)

/-- C7: in any state with a user set and a persisted login_time t, a
tick of the periodic check at a time past t plus 30 minutes forces
logout, whatever the last activity was (in particular with activity as
recent as the tick itself). -/
theorem absolute_lifetime_forces_logout (s : AuthState) (now t : Nat) (u : User)
    (hu : s.user = some u) (ht : s.storage.login_time = some t)
    (h : t + 30 * 60 * 1000 < now) :
    (intervalCheck s now).user = none := by
  have h2 : 30 * 60 * 1000 < now - t := by omega
  simp [intervalCheck, maxSessionCheck, hu, ht, h2, logout]

/-- Concrete instance of the absolute-lifetime theorem: login_time 100,
tick at 100 + 31 minutes, last activity at the very moment of the
tick. -/
theorem absolute_lifetime_forces_logout_witness :
    (intervalCheck
      { startupState with
        user := some (User.mk "u1" "a@b.com" "Alice" "student")
        lastActivity := 1860100 } 1860100).user = none :=
  absolute_lifetime_forces_logout
    { startupState with
      user := some (User.mk "u1" "a@b.com" "Alice" "student")
      lastActivity := 1860100 } 1860100 100
    (User.mk "u1" "a@b.com" "Alice" "student") rfl rfl (by decide)

/-- C8: in any state with a user set, a tick of the periodic check at a
time past lastActivity plus 10 minutes results in a null user. -/
theorem inactivity_forces_logout (s : AuthState) (now : Nat) (u : User)
    (hu : s.user = some u) (h : s.lastActivity + 10 * 60 * 1000 < now) :
    (intervalCheck s now).user = none := by
  have h1 : 10 * 60 * 1000 < now - s.lastActivity := by omega
  cases hlt : s.storage.login_time with
  | none => simp [intervalCheck, inactivityCheck, maxSessionCheck, hu, hlt, h1, logout]
  | some t =>
      simp [intervalCheck, inactivityCheck, maxSessionCheck, hu, hlt, h1, logout]

/-- Concrete instance of the inactivity theorem: last activity at 0,
tick at 11 minutes. -/
theorem inactivity_forces_logout_witness :
    (intervalCheck
      { startupState with
        user := some (User.mk "u1" "a@b.com" "Alice" "student") } 660000).user = none :=
  inactivity_forces_logout
    { startupState with
      user := some (User.mk "u1" "a@b.com" "Alice" "student") } 660000
    (User.mk "u1" "a@b.com" "Alice" "student") rfl (by decide)

/-- Startup state whose stored display name is present but empty. -/
def emptyNameState : AuthState :=
  { startupState with storage := { startupState.storage with user_name := some "" } }

/-- C10 counterexample: the stored display-name key is present (value
"") at startup revalidation, yet the committed identity carries the
backend email, not the stored value: `stored || email` falls back on an
empty string, so "taken from the stored key when present" fails. -/
theorem stored_empty_name_not_used :
    emptyNameState.storage.user_name = some "" ∧
    demoValidateResp.name = "Server" ∧
    (checkAuth emptyNameState 200 (Except.ok demoValidateResp)).user =
      some (User.mk "u1" "a@b.com" "a@b.com" "student") := by
  decide

/-- C10 (amended): after a successful startup revalidation, the
identity's display name is the stored user_name when present and
non-empty, and the backend email otherwise; the name field of the
validate response is never used on this path: changing it changes
nothing in the outcome. -/
theorem startup_name_from_storage_or_fallback (s : AuthState) (now : Nat)
    (resp : ValidateResponse) (ht : truthyStr s.storage.access_token = true) :
    (checkAuth s now (Except.ok resp)).user =
      some (User.mk resp.user_id resp.email
        (storedNameOr s.storage.user_name resp.email) resp.role) ∧
    ∀ n : String,
      checkAuth s now
          (Except.ok (ValidateResponse.mk resp.user_id resp.email resp.role n)) =
        checkAuth s now (Except.ok resp) := by
  constructor
  · simp [checkAuth, checkAuthStart, checkAuthResume, ht]
    split <;> rfl
  · intro n
    cases resp
    rfl

/-- Concrete instance of the amended display-name theorem. -/
theorem startup_name_from_storage_or_fallback_witness :
    ((checkAuth startupState 200 (Except.ok demoValidateResp)).user =
      some (User.mk demoValidateResp.user_id demoValidateResp.email
        (storedNameOr startupState.storage.user_name demoValidateResp.email)
        demoValidateResp.role) ∧
    ∀ n : String,
      checkAuth startupState 200
          (Except.ok (ValidateResponse.mk demoValidateResp.user_id
            demoValidateResp.email demoValidateResp.role n)) =
        checkAuth startupState 200 (Except.ok demoValidateResp)) :=
  startup_name_from_storage_or_fallback startupState 200 demoValidateResp (by decide)

end SmartLibrary
